import Mathlib

/-!
# Verification of the lureon-webhooks order-paid handler

Shallow embedding of the repository's webhook receiver:

* `src/api/orders-paid.js` — the main handler: Shopify signature
  verification, SKU → tag mapping, the variant-matrix Systeme gateway
  (`systemeFetch`), the contact upsert and tag-assignment flow.
* `src/unnamed/part_001` — alternate revisions of the same endpoint,
  containing the single-URL client `systeme` (with 429/5xx retry),
  `resolveSystemeTagId` (tag-name resolution) and a contact upsert
  variant with race recovery.

JavaScript values flowing through the handler are modelled by the
inductive `Json` below (with `undef` for JavaScript `undefined`),
together with the JS coercions the source relies on: truthiness,
`String(...)`, `Number(...)` and loose `== null`.  Network and crypto
effects are passed in explicitly: HMAC and JSON.parse as a `Codec`
record of pure functions, HTTP fetches as an oracle `Nat → FetchOutcome`
indexed by the sequence number of the fetch call.
-/

namespace Lureon

/-! ### String primitives

Character-list implementations of the string operations the source
uses (`trim`, `toLowerCase`, `startsWith`, prefix-drop, decimal
parsing).  They agree with the JavaScript operations on the data flowing
through the handler and, unlike the `Substring`-based core-library
versions, evaluate by kernel reduction on concrete inputs. -/

/-- JavaScript `s.trim()`: strip leading/trailing whitespace. -/
def jsTrim (s : String) : String :=
  ⟨((s.data.dropWhile Char.isWhitespace).reverse.dropWhile
    Char.isWhitespace).reverse⟩

/-- JavaScript `s.toLowerCase()` (ASCII case folding). -/
def jsToLower (s : String) : String :=
  ⟨s.data.map Char.toLower⟩

/-- `s.startsWith(pre)`. -/
def strStartsWith (s pre : String) : Bool :=
  pre.data.isPrefixOf s.data

/-- Drop the first `n` characters of `s`. -/
def strDrop (s : String) (n : Nat) : String :=
  ⟨s.data.drop n⟩

/-- Value of a list of decimal digits. -/
def digitsVal (l : List Char) : Nat :=
  l.foldl (fun n c => n * 10 + (c.toNat - 48)) 0

/-- Parse an optionally-signed decimal integer, `none` otherwise
(JavaScript `Number` on a non-numeric string is `NaN`; non-integral
numerics are approximated as `NaN`, see `jsToNum`). -/
def strToInt? (s : String) : Option Int :=
  match s.data with
  | [] => none
  | '-' :: rest =>
    if rest ≠ [] ∧ rest.all Char.isDigit then some (-(digitsVal rest : Int))
    else none
  | l =>
    if l.all Char.isDigit then some (digitsVal l : Int) else none

/-- Model of a JavaScript value (the subset the handler manipulates).
`undef` is JavaScript `undefined`, distinct from `null`. -/
inductive Json where
  | undef : Json
  | null : Json
  | bool (b : Bool) : Json
  | num (n : Int) : Json
  | str (s : String) : Json
  | arr (xs : List Json) : Json
  | obj (kvs : List (String × Json)) : Json
deriving Repr

/-- JavaScript truthiness: `undefined`, `null`, `false`, `0` and `""`
are falsy, everything else truthy. -/
def jsTruthy : Json → Bool
  | .undef => false
  | .null => false
  | .bool b => b
  | .num n => n != 0
  | .str s => s ≠ ""
  | .arr _ => true
  | .obj _ => true

/-- Loose equality to null (`x == null`): true for `null` and `undefined`. -/
def jsLooseNull : Json → Bool
  | .undef => true
  | .null => true
  | _ => false

/-- JavaScript `a || b`: `b` when `a` is falsy, else `a`. -/
def jsOr (a b : Json) : Json := if jsTruthy a then a else b

/-- Property access `o[k]` / `o?.k`: field of an object, `undefined`
otherwise (including on `null`/`undefined`, matching the `?.` guards the
source places at every access). -/
def jsGet (o : Json) (k : String) : Json :=
  match o with
  | .obj kvs => ((kvs.find? fun kv => kv.1 = k).map Prod.snd).getD Json.undef
  | _ => Json.undef

/-- How one array element renders inside `Array.prototype.toString`:
`null` and `undefined` render as empty, scalars as their string forms.
Approximation: a nested array renders as `""` rather than as its own
join (no handler path stringifies nested arrays). -/
def jsItemToString : Json → String
  | .undef => ""
  | .null => ""
  | .bool b => if b then "true" else "false"
  | .num n => toString n
  | .str s => s
  | .arr _ => ""
  | .obj _ => "[object Object]"

/-- JavaScript `String(v)`.  Arrays join their elements with `,`;
objects render as `[object Object]`. -/
def jsToString : Json → String
  | .undef => "undefined"
  | .null => "null"
  | .bool b => if b then "true" else "false"
  | .num n => toString n
  | .str s => s
  | .arr xs => String.intercalate "," (xs.map jsItemToString)
  | .obj _ => "[object Object]"

/-- JavaScript `Number(v)` restricted to integral results. `none`
models `NaN`; non-integral numeric strings are approximated as `NaN`
(tag and contact ids are integral wherever the source converts). -/
def jsToNum : Json → Option Int
  | .undef => none
  | .null => some 0
  | .bool b => some (if b then 1 else 0)
  | .num n => some n
  | .str s => let t := jsTrim s; if t = "" then some 0 else strToInt? t
  | .arr _ => none
  | .obj _ => none

/-- Truthiness of a JS number modelled as `Option Int` (`none` = `NaN`):
`if (id)` admits exactly the non-zero non-`NaN` values. -/
def truthyNum : Option Int → Bool
  | some n => n != 0
  | none => false

/-- `/^\d+$/.test s`: non-empty and all decimal digits. -/
def isDigitsOnly (s : String) : Bool :=
  !s.data.isEmpty && s.data.all Char.isDigit

/-- Structured model of the exceptions the source can throw. -/
inductive Err where
  /-- `env(name)` threw: the environment variable is missing/blank. -/
  | envMissing (name : String)
  /-- `systemeFetch` threw `Systeme ${path} error: ${status}`
  (`none` = the literal `"unknown"` status). -/
  | gatewayErr (path : String) (status : Option Nat)
  /-- `getTagIdFromMap`: SKU absent from COURSE_TAG_MAP_JSON. -/
  | skuNotMapped (sku : String)
  /-- `getTagIdFromMap`: mapped value is not all decimal digits. -/
  | tagMapNonNumeric (sku val : String)
  /-- `resolveSystemeTagId`: tag creation returned no usable id. -/
  | tagCreateFailed
  /-- `createContact`: every contact-creation channel failed. -/
  | contactCreateFailed
  /-- `upsertSystemeContact`: all upsert steps exhausted. -/
  | upsertFailed
  /-- `assignTagToContact`: all assignment routes failed. -/
  | assignFailed
  /-- Any other runtime exception (e.g. body-stream error). -/
  | jsError (msg : String)
deriving Repr, DecidableEq

/-! ## `timingSafeEqual` (src/api/orders-paid.js lines 26–31)

The source builds UTF-8 `Buffer`s from both strings, short-circuits on a
length mismatch, and otherwise calls `crypto.timingSafeEqual`, which is
bytewise equality computed in constant time.  We model the two compared
values as their byte sequences directly. -/

/-- `timingSafeEqual`: false on length mismatch, else bytewise equality. -/
def timingSafeEqual (a b : List Nat) : Bool :=
  if a.length ≠ b.length then false else a == b

theorem timingSafeEqual_iff (a b : List Nat) :
    timingSafeEqual a b = true ↔ a = b := by
  unfold timingSafeEqual
  constructor
  · intro h
    by_cases hl : a.length = b.length
    · simpa [hl] using h
    · simp [hl] at h
  · rintro rfl
    simp

theorem timingSafeEqual_length_ne (a b : List Nat)
    (h : a.length ≠ b.length) : timingSafeEqual a b = false := by
  simp [timingSafeEqual, h]

/-! ## `getTagIdFromMap` (src/api/orders-paid.js lines 126–134)

`tagMap` is the already-parsed value of COURSE_TAG_MAP_JSON (the source parses
it with a `try`/`catch` that falls back to `{}`; the parse itself is not
modelled, callers supply the parsed `Json`). -/

/-- `getTagIdFromMap(sku)`: look the SKU up in the configured map,
reject absent values and non-digit values, else `Number(s)`. -/
def getTagIdFromMap (tagMap : Json) (sku : String) : Except Err Int :=
  let raw := jsGet tagMap sku
  if jsLooseNull raw then .error (.skuNotMapped sku)
  else
    let s := jsTrim (jsToString raw)
    if isDigitsOnly s then .ok ((digitsVal s.data : Nat) : Int)
    else .error (.tagMapNonNumeric sku s)

/-! ## The variant-matrix gateway `systemeFetch`
(src/api/orders-paid.js lines 42–123)

The network is an oracle `net : Nat → FetchOutcome` indexed by the
sequence number of the fetch call; the loop also returns the trace of
attempts actually issued. -/

/-- Outcome of one `fetch`: an HTTP response with its parsed body (the
source wraps unparseable text as `{raw: text}` before we ever see it,
so the oracle returns `Json` directly), or a thrown exception. -/
inductive FetchOutcome where
  | resp (status : Nat) (json : Json)
  | exn (msg : String)
deriving Repr

/-- One entry of the `attempts` array: concrete URL plus whether the
`X-API-Key` header is attached. -/
structure Attempt where
  url : String
  withKey : Bool
deriving Repr, DecidableEq

/-- The `{ ok, status, json }` record `systemeFetch` returns. -/
structure SFR where
  ok : Bool
  status : Nat
  json : Json
deriving Repr

/-- `pathVariants.add(p)` on a JS `Set`: append iff not yet present
(insertion order preserved). -/
def addVar (l : List String) (p : String) : List String :=
  if p ∈ l then l else l ++ [p]

/-- Generation of the path-variant set (lines 60–81).  String `replace`
of an anchored prefix is prefix-drop plus the replacement. -/
def pathVariants (path : String) : List String :=
  let l := [path]
  let l := if strStartsWith path "/api/public/" then
    addVar (addVar l ("/api/" ++ strDrop path 12)) ("/public/" ++ strDrop path 12)
  else l
  let l := if strStartsWith path "/api/" then
    addVar (addVar l ("/api/public/" ++ strDrop path 5)) ("/" ++ strDrop path 5)
  else l
  let l := if strStartsWith path "/public/" then
    addVar l ("/api/public/" ++ strDrop path 8)
  else l
  if !(strStartsWith path "/api/" || strStartsWith path "/public/") then
    addVar (addVar l ("/api" ++ (if strStartsWith path "/" then "" else "/") ++ path))
      ("/api/public" ++ (if strStartsWith path "/" then "" else "/") ++ path)
  else l

/-- The `attempts` array (lines 83–89): for each base (env override or
`api.systeme.io`, then `systeme.io`), each path variant, with-key then
no-key.  `envBase = ""` models an unset SYSTEME_API_BASE. -/
def attemptsFor (envBase : String) (path : String) : List Attempt :=
  let base0 := if jsTrim envBase = "" then "https://api.systeme.io" else jsTrim envBase
  let bases := [base0, "https://systeme.io"]
  bases.flatMap fun b => (pathVariants path).flatMap fun p =>
    [⟨b ++ p, true⟩, ⟨b ++ p, false⟩]

/-- The record pushed into `last` when a fetch throws (line 115). -/
def exnRecord (msg : String) : SFR :=
  ⟨false, 0, .obj [("error", .str msg)]⟩

/-- End of the attempt loop (lines 119–122): return the tolerated 404
record, else throw with the preferred recorded status. -/
def sfEnd (path : String) (tolerate404 : Bool)
    (last last404 : Option SFR) : Except Err SFR :=
  match tolerate404, last404 with
  | true, some r => .ok r
  | _, _ =>
    match last, last404 with
    | some f, _ => .error (.gatewayErr path (some f.status))
    | none, some _ => .error (.gatewayErr path (some 404))
    | none, none => .error (.gatewayErr path none)

/-- The attempt loop (lines 94–117), threading the fetch counter and the
`last` / `last404` accumulators, and recording the trace of attempts
issued. -/
def sfLoop (net : Nat → FetchOutcome) (path : String) (tolerate404 : Bool) :
    List Attempt → Nat → Option SFR → Option SFR →
    Except Err SFR × List Attempt
  | [], _, last, last404 => (sfEnd path tolerate404 last last404, [])
  | a :: rest, i, last, last404 =>
    match net i with
    | .resp st j =>
      if 200 ≤ st ∧ st ≤ 299 then (.ok ⟨true, st, j⟩, [a])
      else if st = 404 then
        let r := sfLoop net path tolerate404 rest (i + 1) last (some ⟨false, 404, j⟩)
        (r.1, a :: r.2)
      else
        let r := sfLoop net path tolerate404 rest (i + 1) (some ⟨false, st, j⟩) last404
        (r.1, a :: r.2)
    | .exn m =>
      let r := sfLoop net path tolerate404 rest (i + 1) (some (exnRecord m)) last404
      (r.1, a :: r.2)

/-- `systemeFetch(path, opts, {tolerate404})`: run the attempt loop over
the generated attempt matrix.  Returns the result together with the
trace of attempts that were actually fetched. -/
def systemeFetch (net : Nat → FetchOutcome) (envBase path : String)
    (tolerate404 : Bool) : Except Err SFR × List Attempt :=
  sfLoop net path tolerate404 (attemptsFor envBase path) 0 none none

/-! ## The single-URL retrying client `systeme`
(src/unnamed/part_001 lines 10–30)

This earlier revision of the endpoint uses one fixed URL and, on a 429
or 5xx response, sleeps for `Number(Retry-After || 1)` seconds and
reissues the same request, decrementing a retry budget (`tries = 2` at
the call sites). -/

/-- A fetch `Response` as `systeme` consumes it: status plus the
`Retry-After` header (`none` = header absent, i.e. `get` returned
`null`). -/
structure SResp where
  status : Nat
  retryAfter : Option String
deriving Repr, DecidableEq

/-- `Number(resp.headers.get("Retry-After") || 1) * 1000`, the sleep in
milliseconds; `none` models `NaN`. -/
def retryDelayMs (r : SResp) : Option Int :=
  match r.retryAfter with
  | none => some 1000
  | some s =>
    if s = "" then some 1000
    else (jsToNum (.str s)).map (fun n => n * 1000)

/-- Is the status transient per `systeme`: `429` or `>= 500`. -/
def isTransient (st : Nat) : Bool := st == 429 || 500 ≤ st

/-- `systeme(path, opts, tries)`: fetch; while the status is transient
and retries remain, sleep and re-fetch.  Returns the final response and
the trace of sleeps performed (in ms, `none` = `NaN` delay). -/
def systeme (net : Nat → SResp) : Nat → Nat → SResp × List (Option Int)
  | i, 0 => (net i, [])
  | i, tries + 1 =>
    let resp := net i
    if isTransient resp.status then
      let r := systeme net (i + 1) tries
      (r.1, retryDelayMs resp :: r.2)
    else (resp, [])

/-! ## The two-attempt gateway and tag resolver of src/unnamed/part_001
(lines 404–459)

`systemeFetchAlt` embeds that revision's `systemeFetch`: base
`https://systeme.io`, one retry toggling `/api/` ↔ `/api/public/` on a
404, throw on any other failure unless a tolerated 404.  The API-key
header is built with `env("SYSTEME_API_KEY")`, which throws when the
variable is blank.  The function returns the advanced fetch counter so
a caller's next gateway call reads fresh oracle entries. -/

/-- A logical gateway request, for call traces: path, method, body. -/
structure GReq where
  path : String
  method : String
  body : Option Json
deriving Repr

/-- The `/api/` ↔ `/api/public/` toggle (lines 417–423). -/
def togglePublic (path : String) : String :=
  if strStartsWith path "/api/public/" then "/api/" ++ strDrop path 12
  else "/api/public/" ++ strDrop path 5

/-- `systemeFetch` of src/unnamed/part_001 (lines 404–437). -/
def systemeFetchAlt (net : Nat → FetchOutcome) (apiKey : String) (i : Nat)
    (path : String) (tolerate404 : Bool) : Except Err SFR × Nat :=
  if jsTrim apiKey = "" then (.error (.envMissing "SYSTEME_API_KEY"), i)
  else
    match net i with
    | .exn m => (.error (.jsError m), i + 1)
    | .resp st j =>
      let retried : Bool := st = 404 && strStartsWith path "/api/"
      let next := if retried then i + 1 else i
      let out := if retried then net (i + 1) else .resp st j
      match out with
      | .exn m => (.error (.jsError m), next + 1)
      | .resp st' j' =>
        if 200 ≤ st' ∧ st' ≤ 299 then (.ok ⟨true, st', j'⟩, next + 1)
        else if tolerate404 && st' = 404 then (.ok ⟨false, 404, j'⟩, next + 1)
        else (.error (.gatewayErr path (some st')), next + 1)

/-- Extraction of the tag-listing items:
`Array.isArray(list.json?.items) ? … : Array.isArray(list.json) ? … : []`. -/
def tagItems (j : Json) : List Json :=
  match jsGet j "items" with
  | .arr xs => xs
  | _ => match j with
    | .arr xs => xs
    | _ => []

/-- The find predicate:
`String(t?.name || "").toLowerCase() === desired`. -/
def tagNameMatches (desired : String) (t : Json) : Bool :=
  (jsToLower (jsToString (jsOr (jsGet t "name") (.str "")))) == desired

/-- `hit?.id` for `hit = items.find(...)`: the id of the first
case-insensitive name match, `undefined` when no tag matches. -/
def tagHit (j : Json) (desired : String) : Json :=
  (((tagItems j).find? (tagNameMatches desired)).map fun h =>
    jsGet h "id").getD Json.undef

/-- `resolveSystemeTagId(tagValue)` (src/unnamed/part_001 lines
440–459): digit strings resolve directly; otherwise list the tags, find
a case-insensitive name match (against the trimmed, lowercased
configured value), and fall back to creating the tag.  The result is a
JS number (`none` = `NaN`); the trace records the logical gateway
requests issued. -/
def resolveSystemeTagId (net : Nat → FetchOutcome) (apiKey : String)
    (tagValue : Json) : Except Err (Option Int) × List GReq :=
  if isDigitsOnly (jsToString tagValue) then (.ok (jsToNum tagValue), [])
  else
    let desired := jsToLower (jsTrim (jsToString tagValue))
    let listReq : GReq := ⟨"/api/tags?perPage=100", "GET", none⟩
    match systemeFetchAlt net apiKey 0 "/api/tags?perPage=100" false with
    | (.error e, _) => (.error e, [listReq])
    | (.ok list, i1) =>
      let hitId := tagHit list.json desired
      if jsTruthy hitId then (.ok (jsToNum hitId), [listReq])
      else
        let createReq : GReq :=
          ⟨"/api/tags", "POST", some (.obj [("name", .str (jsToString tagValue))])⟩
        match systemeFetchAlt net apiKey i1 "/api/tags" false with
        | (.error e, _) => (.error e, [listReq, createReq])
        | (.ok created, _) =>
          let id := jsToNum (jsGet created.json "id")
          if truthyNum id then (.ok id, [listReq, createReq])
          else (.error .tagCreateFailed, [listReq, createReq])

/-! ## Contact upsert
(src/api/orders-paid.js lines 225–236 and src/unnamed/part_001 lines
534–547)

Both upserts are sequencing skeletons over three effectful steps, which
we pass in as data: the first lookup's value, the creation outcome
(`.ok (some n)` = created with id `n`, `.ok none` = the creation call
returned without a usable id, `.error` = `createContact` threw), and the
second lookup's value.  Lookup values are JS numbers-or-null collapsed
to `Option Int` (`none` = `null`/`NaN`); `if (x)` on them is
`truthyNum`. -/

/-- `upsertSystemeContact` of src/api/orders-paid.js: no `try`/`catch`
around `createContact`, so a creation exception propagates without the
second lookup; the second lookup runs only when creation returned a
falsy id. -/
def upsertSystemeContact (lookup1 : Option Int)
    (create : Except Err (Option Int)) (lookup2 : Option Int) :
    Except Err Int :=
  if truthyNum lookup1 then .ok (lookup1.getD 0)
  else
    match create with
    | .error e => .error e
    | .ok id =>
      if truthyNum id then .ok (id.getD 0)
      else if truthyNum lookup2 then .ok (lookup2.getD 0)
      else .error .upsertFailed

/-- `upsertSystemeContact` of src/unnamed/part_001: creation is wrapped
in `try`/`catch`; on a throw the lookup is re-run and a truthy hit is
returned, else the original exception is rethrown.  When creation
returns a falsy id without throwing, control falls off the end of the
function (`.ok none` models the implicit `undefined` return). -/
def upsertSystemeContactAlt (lookup1 : Option Int)
    (create : Except Err (Option Int)) (lookup2 : Option Int) :
    Except Err (Option Int) :=
  if truthyNum lookup1 then .ok lookup1
  else
    match create with
    | .ok id => if truthyNum id then .ok id else .ok none
    | .error e => if truthyNum lookup2 then .ok lookup2 else .error e

/-! ## The main handler (src/api/orders-paid.js lines 259–312)

Crypto and JSON parsing are supplied as pure functions (`Codec`), the
two downstream effect points (`upsertSystemeContact`,
`assignTagToContact`) as an `Effects` oracle; the handler records a
trace of the effect calls it issues.  The enclosing `try`/`catch` that
converts any thrown error into `res.status(200).json({ok:true, error})`
is encoded by the `.okAbsorbed` response at every throwing position. -/

/-- Request bodies' bytes; header values that are compared bytewise
(the HMAC header) are also byte lists. -/
abbrev Bytes := List Nat

/-- The inbound HTTP request as the handler reads it.  `rawBody` is the
`readRawBody` promise's outcome (`error` = stream error); absent
headers are `none`. -/
structure Request where
  method : String
  rawBody : Except String Bytes
  hmacHeader : Option Bytes
  topic : Option String
  shop : Option String

/-- Environment configuration.  A blank string models an unset
variable (`env` throws on it); `tagMap` is the parsed
COURSE_TAG_MAP_JSON (parse failure yields `Json.obj []` upstream of the
handler, matching the source's `catch {}`). -/
structure Config where
  shopDomain : String
  webhookSecret : String
  tagMap : Json

/-- The pure cryptographic/parsing primitives the handler composes:
`hmacBase64 secret body` is the UTF-8 bytes of the base64-encoded
HMAC-SHA256 digest, `parseJson` is `JSON.parse` (`none` = syntax
error). -/
structure Codec where
  hmacBase64 : String → Bytes → Bytes
  parseJson : Bytes → Option Json

/-- Downstream effects: contact upsert and tag assignment, each may
throw. -/
structure Effects where
  upsert : String → Json → Json → Except Err Int
  assign : Int → Int → Except Err Unit

/-- Trace entry: one downstream effect call issued by the handler. -/
inductive Call where
  | upsertCall (email : String) (firstName lastName : Json)
  | assignCall (contactId tagId : Int)
deriving Repr

/-- The response bodies the handler can produce, one constructor per
`return res....` site. -/
inductive RBody where
  | errMethod
  | errBadRequest
  | errUnauthorized
  | okIgnored
  | okNoEmail
  | okNoSku
  | okSuccess
  | okAbsorbed (e : Err)
deriving Repr, DecidableEq

/-- A transport response: status code and body. -/
structure Resp where
  status : Nat
  body : RBody
deriving Repr, DecidableEq

/-- Falsiness of an optional header string (`!h`): absent or empty. -/
def hdrFalsy (h : Option String) : Bool := h.getD "" = ""

/-- The email extraction
`String(payload?.email || payload?.customer?.email || "").trim()`. -/
def extractEmail (payload : Json) : String :=
  jsTrim (jsToString (jsOr (jsGet payload "email")
    (jsOr (jsGet (jsGet payload "customer") "email") (.str ""))))

/-- `payload?.customer?.f || payload?.billing_address?.f || ""`. -/
def extractName (payload : Json) (f : String) : Json :=
  jsOr (jsGet (jsGet payload "customer") f)
    (jsOr (jsGet (jsGet payload "billing_address") f) (.str ""))

/-- `Array.isArray(payload?.line_items) ? payload.line_items : []`. -/
def extractLineItems (payload : Json) : List Json :=
  match jsGet payload "line_items" with
  | .arr xs => xs
  | _ => []

/-- `String(li?.sku || "").trim()` for a line item. -/
def skuOf (li : Json) : String :=
  jsTrim (jsToString (jsOr (jsGet li "sku") (.str "")))

/-- The SKU-selection loop (lines 287–291): the first line item whose
`String(li?.sku || "").trim()` is non-empty. -/
def selectFirstSku (items : List Json) : Option String :=
  items.findSome? fun li =>
    if skuOf li ≠ "" then some (skuOf li) else none

/-- The exported handler of src/api/orders-paid.js. -/
def handler (c : Codec) (cfg : Config) (fx : Effects) (req : Request) :
    Resp × List Call :=
  if req.method ≠ "POST" then (⟨405, .errMethod⟩, [])
  else
    match req.rawBody with
    | .error e => (⟨200, .okAbsorbed (.jsError e)⟩, [])
    | .ok raw =>
      if req.hmacHeader.getD [] = [] ∨ hdrFalsy req.topic ∨ hdrFalsy req.shop then
        (⟨400, .errBadRequest⟩, [])
      else if jsTrim cfg.shopDomain = "" then
        (⟨200, .okAbsorbed (.envMissing "SHOPIFY_SHOP_DOMAIN")⟩, [])
      else if req.shop.getD "" ≠ cfg.shopDomain then
        (⟨401, .errUnauthorized⟩, [])
      else if jsTrim cfg.webhookSecret = "" then
        (⟨200, .okAbsorbed (.envMissing "SHOPIFY_WEBHOOK_SECRET")⟩, [])
      else if ¬ timingSafeEqual (c.hmacBase64 cfg.webhookSecret raw)
          (req.hmacHeader.getD []) then
        (⟨401, .errUnauthorized⟩, [])
      else if req.topic.getD "" ≠ "orders/paid" then
        (⟨200, .okIgnored⟩, [])
      else
        match c.parseJson raw with
        | none => (⟨400, .errBadRequest⟩, [])
        | some payload =>
          let email := extractEmail payload
          let firstName := extractName payload "first_name"
          let lastName := extractName payload "last_name"
          if email = "" then (⟨200, .okNoEmail⟩, [])
          else
            match selectFirstSku (extractLineItems payload) with
            | none => (⟨200, .okNoSku⟩, [])
            | some matchedSku =>
              match getTagIdFromMap cfg.tagMap matchedSku with
              | .error e => (⟨200, .okAbsorbed e⟩, [])
              | .ok tagId =>
                match fx.upsert email firstName lastName with
                | .error e =>
                  (⟨200, .okAbsorbed e⟩, [.upsertCall email firstName lastName])
                | .ok contactId =>
                  match fx.assign contactId tagId with
                  | .error e =>
                    (⟨200, .okAbsorbed e⟩,
                      [.upsertCall email firstName lastName,
                        .assignCall contactId tagId])
                  | .ok _ =>
                    (⟨200, .okSuccess⟩,
                      [.upsertCall email firstName lastName,
                        .assignCall contactId tagId])

/-! ## Specification-side helpers

Pure functions used to *state* properties of the gateway loop and the
handler; they are not translations of source code. -/

/-- Did a fetch outcome satisfy `res.ok` (2xx)? -/
def isSuccessOut : FetchOutcome → Bool
  | .resp st _ => decide (200 ≤ st ∧ st ≤ 299)
  | .exn _ => false

/-- The record a non-success, non-404 outcome contributes to `last`
(`none` for successes and 404s). -/
def errRec : FetchOutcome → Option SFR
  | .resp st j =>
    if 200 ≤ st ∧ st ≤ 299 then none
    else if st = 404 then none
    else some ⟨false, st, j⟩
  | .exn m => some (exnRecord m)

/-- The record a 404 outcome contributes to `last404`. -/
def rec404 : FetchOutcome → Option SFR
  | .resp st j => if st = 404 then some ⟨false, 404, j⟩ else none
  | .exn _ => none

/-- The oracle's next `n` outcomes starting at index `i`. -/
def outsFrom (net : Nat → FetchOutcome) (i : Nat) : Nat → List FetchOutcome
  | 0 => []
  | n + 1 => net i :: outsFrom net (i + 1) n

/-- Fold a batch of recorded values over an accumulator: the last
record wins, the old accumulator survives only an empty batch. -/
def updSFR (xs : List SFR) (l : Option SFR) : Option SFR :=
  match xs.getLast? with
  | some x => some x
  | none => l

/-- Is a trace entry a tag-assignment call? -/
def isAssign : Call → Bool
  | .assignCall _ _ => true
  | _ => false

/-- The outcomes a full pass of `systemeFetch`'s attempt loop observes
when no attempt succeeds. -/
def gatewayOuts (net : Nat → FetchOutcome) (envBase path : String) :
    List FetchOutcome :=
  outsFrom net 0 (attemptsFor envBase path).length

/-- Oracle for the C3 counterexample: the first fetch is rate-limited,
every later one 404s. -/
def c3net : Nat → FetchOutcome := fun i =>
  if i = 0 then .resp 429 .null else .resp 404 .null

/-- Oracle for the C3 witness of the `systeme` retry behavior: first a
429 carrying `Retry-After: 3`, then a 200. -/
def c3s : Nat → SResp := fun i =>
  if i = 0 then ⟨429, some "3"⟩ else ⟨200, none⟩

/-- Oracle for the C4 witness: every fetch 404s. -/
def c4all404 : Nat → FetchOutcome := fun _ => .resp 404 .null

/-- Oracle for the C4 counterexample: the second fetch fails with a
500, every other one 404s. -/
def c4net : Nat → FetchOutcome := fun i =>
  if i = 1 then .resp 500 .null else .resp 404 .null

/-- Oracle for the C5 witness: the tag listing succeeds and is empty,
the creation call succeeds with id 9. -/
def c5net : Nat → FetchOutcome := fun i =>
  if i = 0 then .resp 200 (.obj [("items", .arr [])])
  else .resp 201 (.obj [("id", .num 9)])

/-! ### Concrete request fixtures (used by witnesses) -/

/-- A paid-order payload with email `a@b.com` and one line item with
SKU `X1`. -/
def cwPayload : Json :=
  .obj [("email", .str "a@b.com"),
    ("line_items", .arr [.obj [("sku", .str "X1")]])]

/-- A payload whose first SKU-bearing line item is `A` (unmapped) and
whose second is `B` (mapped). -/
def cwPayload2 : Json :=
  .obj [("email", .str "a@b.com"),
    ("line_items", .arr [.obj [("sku", .str "A")], .obj [("sku", .str "B")]])]

/-- A payload with a mapped SKU but no email anywhere. -/
def cwPayload3 : Json :=
  .obj [("line_items", .arr [.obj [("sku", .str "X1")]])]

/-- A payload whose email field is whitespace-only: the source's
`.trim()` makes its extracted email empty. -/
def cwPayload4 : Json :=
  .obj [("email", .str "   "),
    ("line_items", .arr [.obj [("sku", .str "X1")]])]

/-- The full upstream tag store for the C5 counterexample: 100 filler
tags fill the first `perPage=100` page, and the tag `gold` (id 42)
lives beyond it, on the never-requested second page. -/
def c5store : List Json :=
  ((List.range 100).map fun i =>
    Json.obj [("name", .str ("t" ++ toString i)), ("id", .num (i + 1))]) ++
    [Json.obj [("name", .str "gold"), ("id", .num 42)]]

/-- Oracle for the C5 counterexample: the listing request is served the
first page of `c5store` (its first 100 tags); the next request (the
creation POST) succeeds with the fresh id 7. -/
def c5paged : Nat → FetchOutcome := fun i =>
  if i = 0 then .resp 200 (.obj [("items", .arr (c5store.take 100))])
  else .resp 201 (.obj [("id", .num 7)])

/-- Codec whose HMAC is the constant byte string `[1]` and whose parser
returns the given payload. -/
def cwCodec (p : Json) : Codec := ⟨fun _ _ => [1], fun _ => some p⟩

/-- Configuration with tenant `shop.example` and tag map `{X1: "7"}`. -/
def cwCfg : Config := ⟨"shop.example", "sec", .obj [("X1", .str "7")]⟩

/-- Configuration whose tag map is `{B: "7"}` (SKU `A` unmapped). -/
def cwCfg2 : Config := ⟨"shop.example", "sec", .obj [("B", .str "7")]⟩

/-- Effects whose upsert throws an upstream error. -/
def cwFxErr : Effects :=
  ⟨fun _ _ _ => .error (.gatewayErr "/api/contacts" (some 500)),
    fun _ _ => .ok ()⟩

/-- Effects whose upsert yields contact 5 and whose assign succeeds. -/
def cwFxOk : Effects := ⟨fun _ _ _ => .ok 5, fun _ _ => .ok ()⟩

/-- A fully well-formed inbound request matching `cwCodec`/`cwCfg`. -/
def cwReq : Request :=
  ⟨"POST", .ok [9], some [1], some "orders/paid", some "shop.example"⟩

/-! # Theorems -/

/-- C2: signature verification succeeds exactly when the supplied
signature header byte-equals the base64-encoded HMAC-SHA256 of the raw
body under the configured secret — with a correct tenant and a
correctly computed signature the handler never answers Unauthorized,
any mismatch answers 401 Unauthorized, and a length mismatch between
the compared byte sequences is treated as unequal. -/
theorem c2_signature_verification :
    (∀ a b : Bytes, timingSafeEqual a b = true ↔ a = b) ∧
    (∀ a b : Bytes, a.length ≠ b.length → timingSafeEqual a b = false) ∧
    (∀ (c : Codec) (cfg : Config) (fx : Effects) (req : Request)
      (raw : Bytes),
      req.method = "POST" →
      req.rawBody = .ok raw →
      req.hmacHeader.getD [] ≠ [] →
      hdrFalsy req.topic = false →
      hdrFalsy req.shop = false →
      jsTrim cfg.shopDomain ≠ "" →
      req.shop.getD "" = cfg.shopDomain →
      jsTrim cfg.webhookSecret ≠ "" →
      ((req.hmacHeader.getD [] = c.hmacBase64 cfg.webhookSecret raw →
          (handler c cfg fx req).1.body ≠ .errUnauthorized) ∧
        (req.hmacHeader.getD [] ≠ c.hmacBase64 cfg.webhookSecret raw →
          (handler c cfg fx req).1 = ⟨401, .errUnauthorized⟩))) := by
  refine ⟨timingSafeEqual_iff, timingSafeEqual_length_ne, ?_⟩
  intro c cfg fx req raw hm hraw hh ht hs hdom hshop hsec
  constructor
  · intro hsig
    have heq : timingSafeEqual (c.hmacBase64 cfg.webhookSecret raw)
        (req.hmacHeader.getD []) = true :=
      (timingSafeEqual_iff _ _).mpr hsig.symm
    unfold handler
    simp only [hm, hraw, hh, ht, hs, hdom, hshop, hsec, heq]
    simp only [ne_eq, not_true_eq_false, if_false, not_false_eq_true,
      if_true, if_neg, reduceIte]
    repeat' split
    all_goals simp_all
  · intro hsig
    have hne : timingSafeEqual (c.hmacBase64 cfg.webhookSecret raw)
        (req.hmacHeader.getD []) = false := by
      cases hts : timingSafeEqual (c.hmacBase64 cfg.webhookSecret raw)
        (req.hmacHeader.getD [])
      · rfl
      · exact absurd ((timingSafeEqual_iff _ _).mp hts).symm hsig
    unfold handler
    simp_all

/-- C2 witness: a request with all checks passing and a correct
signature is not rejected as Unauthorized, instantiated at a concrete
codec, configuration and request. -/
theorem c2_signature_verification_witness :
    (handler
      ⟨fun _ _ => [1, 2], fun _ => some (.obj [])⟩
      ⟨"shop.example", "secret", .obj []⟩
      ⟨fun _ _ _ => .ok 1, fun _ _ => .ok ()⟩
      ⟨"POST", .ok [7], some [1, 2], some "orders/paid",
        some "shop.example"⟩).1.body ≠ RBody.errUnauthorized := by
  have h := c2_signature_verification.2.2
    ⟨fun _ _ => [1, 2], fun _ => some (.obj [])⟩
    ⟨"shop.example", "secret", .obj []⟩
    ⟨fun _ _ _ => .ok 1, fun _ _ => .ok ()⟩
    ⟨"POST", .ok [7], some [1, 2], some "orders/paid", some "shop.example"⟩
    [7] rfl rfl (by decide) (by decide) (by decide) (by decide) rfl
    (by decide)
  exact h.1 rfl

/-- C9 counterexample: the configured value `"0"` is accepted by the
resolver and yields tag ID `0`, which is not strictly positive. -/
theorem c9_counterexample :
    getTagIdFromMap (.obj [("X", .str "0")]) "X" = .ok 0 ∧
      ¬ (0 : Int) > 0 := by
  exact ⟨rfl, by decide⟩

/-- C9 (amended): every configured tag-mapping value accepted by
`getTagIdFromMap` yields a *nonnegative* integer tag ID (parsed from
its decimal digits); strict positivity is not enforced — the value
`"0"` resolves to 0. -/
theorem c9_amended (m : Json) (sku : String) (id : Int)
    (h : getTagIdFromMap m sku = .ok id) : 0 ≤ id := by
  simp only [getTagIdFromMap] at h
  split at h
  · exact absurd h (by simp)
  · split at h
    · rw [Except.ok.injEq] at h
      subst h
      exact Int.ofNat_nonneg _
    · exact absurd h (by simp)

/-- C9 witness: the amended bound at the concrete mapping
`{"X": "7"}`. -/
theorem c9_amended_witness :
    (0 : Int) ≤ 7 ∧ getTagIdFromMap (.obj [("X", .str "7")]) "X" = .ok 7 :=
  ⟨c9_amended (.obj [("X", .str "7")]) "X" 7 rfl, rfl⟩

/-- C6 counterexample: in `upsertSystemeContact` of
src/api/orders-paid.js, when the first lookup misses and `createContact`
throws a duplicate-style error (HTTP 409), the error propagates even
though a second lookup would have found contact 42 — no recovery lookup
is run. -/
theorem c6_counterexample :
    upsertSystemeContact none
        (.error (.gatewayErr "/api/contacts" (some 409))) (some 42) =
      .error (.gatewayErr "/api/contacts" (some 409)) ∧
      truthyNum (some 42) = true :=
  ⟨rfl, rfl⟩

/-- C6 (amended): in the main upsert the recovery lookup runs only when
creation *returns* without a usable ID — a creation exception
propagates with no second lookup; the upsert variant of
src/unnamed/part_001 does catch the creation exception, re-runs the
lookup once, and returns a found contact ID without raising. -/
theorem c6_amended :
    (∀ (l1 : Option Int) (e : Err) (l2 : Option Int),
      truthyNum l1 = false →
      upsertSystemeContact l1 (.error e) l2 = .error e) ∧
    (∀ (l1 id l2 : Option Int),
      truthyNum l1 = false → truthyNum id = false → truthyNum l2 = true →
      upsertSystemeContact l1 (.ok id) l2 = .ok (l2.getD 0)) ∧
    (∀ (l1 : Option Int) (e : Err) (l2 : Option Int),
      truthyNum l1 = false → truthyNum l2 = true →
      upsertSystemeContactAlt l1 (.error e) l2 = .ok l2) := by
  refine ⟨?_, ?_, ?_⟩
  · intro l1 e l2 h1
    simp [upsertSystemeContact, h1]
  · intro l1 id l2 h1 h2 h3
    simp [upsertSystemeContact, h1, h2, h3]
  · intro l1 e l2 h1 h2
    simp [upsertSystemeContactAlt, h1, h2]

/-- C6 witness: the amended statement at concrete values — the variant
upsert recovers contact 42 after a 409 creation failure, and the main
upsert runs its recovery lookup after a falsy creation return. -/
theorem c6_amended_witness :
    upsertSystemeContactAlt none
        (.error (.gatewayErr "/api/contacts" (some 409))) (some 42) =
      .ok (some 42) ∧
    upsertSystemeContact none (.ok none) (some 42) = .ok 42 := by
  refine ⟨c6_amended.2.2 none _ (some 42) rfl rfl, ?_⟩
  have h := c6_amended.2.1 none none (some 42) rfl rfl rfl
  simpa using h

/-! ### Gateway attempt-loop lemmas -/

theorem sfLoop_trace_prefix (net : Nat → FetchOutcome) (path : String)
    (tol : Bool) :
    ∀ (atts : List Attempt) (i : Nat) (l l4 : Option SFR),
      (sfLoop net path tol atts i l l4).2 <+: atts := by
  intro atts
  induction atts with
  | nil => intro i l l4; exact List.nil_prefix
  | cons a rest ih =>
    intro i l l4
    show (sfLoop net path tol (a :: rest) i l l4).2 <+: a :: rest
    unfold sfLoop
    cases net i with
    | resp st j =>
      by_cases hok : 200 ≤ st ∧ st ≤ 299
      · simp only [hok, if_true]
        exact ⟨rest, rfl⟩
      · simp only [hok, if_false]
        by_cases h404 : st = 404
        · simp only [h404, if_true]
          exact List.cons_prefix_cons.mpr ⟨rfl, ih _ _ _⟩
        · simp only [h404, if_false]
          exact List.cons_prefix_cons.mpr ⟨rfl, ih _ _ _⟩
    | exn m => exact List.cons_prefix_cons.mpr ⟨rfl, ih _ _ _⟩

theorem updSFR_cons (x : SFR) (xs : List SFR) (l : Option SFR) :
    updSFR (x :: xs) l = updSFR xs (some x) := by
  unfold updSFR
  cases xs with
  | nil => rfl
  | cons y ys =>
    rw [List.getLast?_cons_cons]
    cases h : (y :: ys).getLast? with
    | none => exact absurd (List.getLast?_eq_none_iff.mp h) (by simp)
    | some z => rfl

theorem updSFR_none (xs : List SFR) : updSFR xs none = xs.getLast? := by
  unfold updSFR
  cases h : xs.getLast? <;> rfl

/-- When no attempt succeeds, the loop visits every attempt and ends
with accumulators holding the last recorded non-404 error and the last
recorded 404. -/
theorem sfLoop_noSuccess (net : Nat → FetchOutcome) (path : String)
    (tol : Bool) :
    ∀ (atts : List Attempt) (i : Nat) (l l4 : Option SFR),
      (∀ o ∈ outsFrom net i atts.length, isSuccessOut o = false) →
      sfLoop net path tol atts i l l4 =
        (sfEnd path tol
          (updSFR ((outsFrom net i atts.length).filterMap errRec) l)
          (updSFR ((outsFrom net i atts.length).filterMap rec404) l4),
          atts) := by
  intro atts
  induction atts with
  | nil =>
    intro i l l4 _
    simp [sfLoop, outsFrom, updSFR]
  | cons a rest ih =>
    intro i l l4 h
    have hlen : (a :: rest).length = rest.length + 1 := rfl
    have houts : outsFrom net i (a :: rest).length =
        net i :: outsFrom net (i + 1) rest.length := rfl
    have h0 : isSuccessOut (net i) = false := by
      refine h (net i) ?_
      rw [houts]; exact List.mem_cons_self _ _
    have hr : ∀ o ∈ outsFrom net (i + 1) rest.length,
        isSuccessOut o = false := by
      intro o ho
      refine h o ?_
      rw [houts]; exact List.mem_cons_of_mem _ ho
    rw [houts]
    unfold sfLoop
    cases hne : net i with
    | resp st j =>
      dsimp only
      have hnotok : ¬ (200 ≤ st ∧ st ≤ 299) := by
        rw [hne] at h0
        simpa [isSuccessOut] using h0
      rw [if_neg hnotok]
      by_cases h404 : st = 404
      · subst h404
        rw [if_pos rfl]
        have he : errRec (FetchOutcome.resp 404 j) = none := by
          norm_num [errRec]
        have h4 : rec404 (FetchOutcome.resp 404 j) = some ⟨false, 404, j⟩ := by
          simp [rec404]
        rw [List.filterMap_cons_none he, List.filterMap_cons_some h4,
          updSFR_cons, ih (i + 1) l (some ⟨false, 404, j⟩) hr]
      · rw [if_neg h404]
        have he : errRec (FetchOutcome.resp st j) = some ⟨false, st, j⟩ := by
          simp [errRec, hnotok, h404]
        have h4 : rec404 (FetchOutcome.resp st j) = none := by
          simp [rec404, h404]
        rw [List.filterMap_cons_some he, List.filterMap_cons_none h4,
          updSFR_cons, ih (i + 1) (some ⟨false, st, j⟩) l4 hr]
    | exn m =>
      dsimp only
      have he : errRec (FetchOutcome.exn m) = some (exnRecord m) := rfl
      have h4 : rec404 (FetchOutcome.exn m) = none := rfl
      rw [List.filterMap_cons_some he, List.filterMap_cons_none h4,
        updSFR_cons, ih (i + 1) (some (exnRecord m)) l4 hr]

/-- C3 counterexample: the variant-matrix gateway `systemeFetch` does
not retry a 429 attempt.  With the first attempt rate-limited (429) and
no successes, the call trace is exactly the attempt matrix with no
attempt repeated (`Nodup`): the 429 attempt was issued once and the
loop moved on, and the final error carries the recorded 429 — no
delayed retry of that attempt ever happens (the function contains no
sleep at all). -/
theorem c3_counterexample :
    (systemeFetch c3net "" "/x" false).1 =
      .error (.gatewayErr "/x" (some 429)) ∧
    (systemeFetch c3net "" "/x" false).2 = attemptsFor "" "/x" ∧
    (attemptsFor "" "/x").Nodup ∧
    c3net 0 = .resp 429 .null ∧
    isTransient 429 = true :=
  ⟨rfl, rfl, by decide, rfl, rfl⟩

/-- C3 (amended): the variant-matrix gateway (`systemeFetch`,
src/api/orders-paid.js) never retries an attempt — its call trace is
always a prefix of the precomputed attempt matrix, a 429/5xx outcome is
simply recorded before moving to the next variant.  The
retry-with-delay behavior belongs to the single-URL client `systeme` of
src/unnamed/part_001: it performs at most `tries` retries; on a
transient status (429/5xx) with budget remaining it sleeps and reissues
the same request; on a non-transient status it returns at once; the
sleep is `Retry-After · 1000` ms when the header carries a number and
1000 ms when it is absent. -/
theorem c3_amended :
    (∀ (net : Nat → FetchOutcome) (envBase path : String) (tol : Bool),
      (systemeFetch net envBase path tol).2 <+: attemptsFor envBase path) ∧
    (∀ (net : Nat → SResp) (i t : Nat), (systeme net i t).2.length ≤ t) ∧
    (∀ (net : Nat → SResp) (i t : Nat),
      isTransient (net i).status = true →
      systeme net i (t + 1) =
        ((systeme net (i + 1) t).1,
          retryDelayMs (net i) :: (systeme net (i + 1) t).2)) ∧
    (∀ (net : Nat → SResp) (i t : Nat),
      isTransient (net i).status = false →
      systeme net i (t + 1) = (net i, [])) ∧
    (∀ r : SResp, r.retryAfter = none → retryDelayMs r = some 1000) ∧
    (∀ (r : SResp) (s : String) (n : Int),
      r.retryAfter = some s → s ≠ "" → jsTrim s ≠ "" →
      strToInt? (jsTrim s) = some n → retryDelayMs r = some (n * 1000)) := by
  refine ⟨?_, ?_, ?_, ?_, ?_, ?_⟩
  · intro net envBase path tol
    exact sfLoop_trace_prefix net path tol (attemptsFor envBase path) 0 none none
  · intro net i t
    induction t generalizing i with
    | zero => simp [systeme]
    | succ t ih =>
      unfold systeme
      by_cases h : isTransient (net i).status
      · simp only [h, if_true, List.length_cons]
        exact Nat.succ_le_succ (ih (i + 1))
      · simp only [h, if_false, List.length_nil]
        exact Nat.zero_le _
  · intro net i t h
    conv_lhs => rw [systeme]
    simp [h]
  · intro net i t h
    conv_lhs => rw [systeme]
    simp [h]
  · intro r h
    simp [retryDelayMs, h]
  · intro r s n h hs ht hn
    simp [retryDelayMs, h, hs, jsToNum, ht, hn]

/-- C3 witness: the amended behavior at concrete oracles — `systeme`
retries once after a 429 with `Retry-After: 3` (a 3000 ms sleep) and
the retry budget bounds the sleeps. -/
theorem c3_amended_witness :
    systeme c3s 0 (1 + 1) =
      ((systeme c3s 1 1).1, retryDelayMs (c3s 0) :: (systeme c3s 1 1).2) ∧
    retryDelayMs ⟨429, some "3"⟩ = some (3 * 1000) ∧
    (systeme c3s 0 2).2.length ≤ 2 := by
  refine ⟨c3_amended.2.2.1 c3s 0 1 rfl, ?_, c3_amended.2.1 c3s 0 2⟩
  exact c3_amended.2.2.2.2.2 ⟨429, some "3"⟩ "3" 3 rfl (by decide) (by decide) rfl

/-- C4 counterexample: with `tolerate404 = true`, one attempt failing
with a 500 and every other attempt a 404 (no successes), the gateway
still returns the structured not-found result — the claim instead
requires this only when the *only* failures seen were 404s, and
otherwise a failure carrying the more specific non-404 error. -/
theorem c4_counterexample :
    (systemeFetch c4net "" "/x" true).1 = .ok ⟨false, 404, .null⟩ ∧
    c4net 1 = .resp 500 .null ∧
    errRec (.resp 500 .null) = some ⟨false, 500, .null⟩ ∧
    1 < (attemptsFor "" "/x").length :=
  ⟨rfl, rfl, rfl, by decide⟩

/-- C4 (amended): when every attempt of a gateway call fails — if the
caller tolerates not-found and *at least one* 404 was seen (even
alongside non-404 errors), the gateway returns the structured not-found
result built from the last 404; otherwise it throws, preferring the
last recorded non-404 error over a 404, and reporting 404 only when
every failure was a 404. -/
theorem c4_amended (net : Nat → FetchOutcome) (envBase path : String)
    (tol : Bool)
    (h : ∀ o ∈ gatewayOuts net envBase path, isSuccessOut o = false) :
    (tol = true →
      ∀ r, ((gatewayOuts net envBase path).filterMap rec404).getLast? = some r →
        (systemeFetch net envBase path tol).1 = .ok r) ∧
    (∀ e, (tol = false ∨ (gatewayOuts net envBase path).filterMap rec404 = []) →
      ((gatewayOuts net envBase path).filterMap errRec).getLast? = some e →
      (systemeFetch net envBase path tol).1 =
        .error (.gatewayErr path (some e.status))) ∧
    ((gatewayOuts net envBase path).filterMap errRec = [] →
      (gatewayOuts net envBase path).filterMap rec404 ≠ [] →
      tol = false →
      (systemeFetch net envBase path tol).1 =
        .error (.gatewayErr path (some 404))) := by
  have key := sfLoop_noSuccess net path tol (attemptsFor envBase path) 0
    none none h
  have hres : (systemeFetch net envBase path tol).1 =
      sfEnd path tol
        (((gatewayOuts net envBase path).filterMap errRec).getLast?)
        (((gatewayOuts net envBase path).filterMap rec404).getLast?) := by
    unfold systemeFetch
    rw [key]
    rw [updSFR_none, updSFR_none]
    rfl
  refine ⟨?_, ?_, ?_⟩
  · intro htol r hr
    rw [hres, hr, htol]
    rfl
  · intro e hcase he
    rw [hres, he]
    rcases hcase with htol | h404
    · rw [htol]
      rfl
    · rw [h404]
      cases tol <;> rfl
  · intro herr h404 htol
    rw [hres, herr, htol]
    rcases hne : ((gatewayOuts net envBase path).filterMap rec404).getLast?
      with _ | r
    · exact absurd (List.getLast?_eq_none_iff.mp hne) h404
    · rfl

/-- C4 witness: the amended behavior at a concrete oracle where every
attempt 404s and not-found is tolerated: the gateway returns the
structured not-found result. -/
theorem c4_amended_witness :
    (systemeFetch c4all404 "" "/x" true).1 = .ok ⟨false, 404, .null⟩ :=
  (c4_amended c4all404 "" "/x" true (by decide)).1 rfl ⟨false, 404, .null⟩ rfl

/-! ### Tag-resolver lemmas -/

/-- The gateway never throws the tag-creation contract error: its own
failures are env, fetch-exception or HTTP-status errors. -/
theorem systemeFetchAlt_ne_tagCreate (net : Nat → FetchOutcome)
    (apiKey : String) (i : Nat) (path : String) (tol : Bool) :
    (systemeFetchAlt net apiKey i path tol).1 ≠ .error .tagCreateFailed := by
  intro h
  unfold systemeFetchAlt at h
  by_cases hk : jsTrim apiKey = ""
  · rw [if_pos hk] at h
    simp at h
  · rw [if_neg hk] at h
    cases hn : net i with
    | exn m =>
      rw [hn] at h
      simp at h
    | resp st j =>
      rw [hn] at h
      dsimp only at h
      by_cases hc : (decide (st = 404) && strStartsWith path "/api/") = true
      · rw [if_pos hc] at h
        cases hn2 : net (i + 1) with
        | exn m =>
          rw [hn2] at h
          simp at h
        | resp st' j' =>
          rw [hn2] at h
          dsimp only at h
          repeat' split at h
          all_goals simp_all
      · rw [if_neg hc] at h
        dsimp only at h
        repeat' split at h
        all_goals simp_all

/-- C5 counterexample: the resolver does not search the *full* upstream
tag listing — it issues a single `perPage=100` listing request and
never paginates.  With 101 upstream tags whose case-insensitive exact
match `gold` (id 42) lies beyond the first page, the resolver's trace
holds only the one listing request and a creation request, and it
returns the newly created id 7 instead of the existing tag's 42. -/
theorem c5_counterexample :
    (∃ t ∈ c5store, tagNameMatches "gold" t = true ∧
      jsGet t "id" = .num 42) ∧
    (resolveSystemeTagId c5paged "k" (.str "gold")).1 = .ok (some 7) ∧
    (resolveSystemeTagId c5paged "k" (.str "gold")).2 =
      [⟨"/api/tags?perPage=100", "GET", none⟩,
        ⟨"/api/tags", "POST", some (.obj [("name", .str "gold")])⟩] := by
  refine ⟨⟨Json.obj [("name", .str "gold"), ("id", .num 42)], ?_, rfl, rfl⟩,
    ?_, ?_⟩
  · simp [c5store]
  · rfl
  · rfl

/-- C5 (amended): a configured tag value that is not all decimal digits
is treated as a tag name — the resolver issues a single listing request
capped at `perPage=100` (its trace never holds any request other than
that one listing request and the creation request, so no further page
is ever fetched), case-insensitively matches the (trimmed, lowercased)
value against the names in that first page's items and returns the
first matched tag's ID; on no match in that page it issues a creation
request carrying exactly that name and returns the newly issued ID; and
the contract error (`tagCreateFailed`) arises precisely when the
creation call succeeded but yielded no usable (truthy numeric) ID. -/
theorem c5_tag_name_resolution (net : Nat → FetchOutcome)
    (apiKey : String) (v : Json)
    (hdig : isDigitsOnly (jsToString v) = false) :
    ((∀ (r : SFR) (i1 : Nat),
      systemeFetchAlt net apiKey 0 "/api/tags?perPage=100" false = (.ok r, i1) →
      jsTruthy (tagHit r.json (jsToLower (jsTrim (jsToString v)))) = true →
      (resolveSystemeTagId net apiKey v).1 =
        .ok (jsToNum (tagHit r.json (jsToLower (jsTrim (jsToString v)))))) ∧
    (∀ (r : SFR) (i1 : Nat),
      systemeFetchAlt net apiKey 0 "/api/tags?perPage=100" false = (.ok r, i1) →
      jsTruthy (tagHit r.json (jsToLower (jsTrim (jsToString v)))) = false →
      ((resolveSystemeTagId net apiKey v).2 =
        [⟨"/api/tags?perPage=100", "GET", none⟩,
          ⟨"/api/tags", "POST", some (.obj [("name", .str (jsToString v))])⟩] ∧
      (∀ (r' : SFR) (i2 : Nat),
        systemeFetchAlt net apiKey i1 "/api/tags" false = (.ok r', i2) →
        truthyNum (jsToNum (jsGet r'.json "id")) = true →
        (resolveSystemeTagId net apiKey v).1 =
          .ok (jsToNum (jsGet r'.json "id"))) ∧
      (∀ (r' : SFR) (i2 : Nat),
        systemeFetchAlt net apiKey i1 "/api/tags" false = (.ok r', i2) →
        truthyNum (jsToNum (jsGet r'.json "id")) = false →
        (resolveSystemeTagId net apiKey v).1 = .error .tagCreateFailed))) ∧
    ((resolveSystemeTagId net apiKey v).1 = .error .tagCreateFailed →
      ∃ (r : SFR) (i1 : Nat) (r' : SFR) (i2 : Nat),
        systemeFetchAlt net apiKey 0 "/api/tags?perPage=100" false
          = (.ok r, i1) ∧
        jsTruthy (tagHit r.json (jsToLower (jsTrim (jsToString v)))) = false ∧
        systemeFetchAlt net apiKey i1 "/api/tags" false = (.ok r', i2) ∧
        truthyNum (jsToNum (jsGet r'.json "id")) = false) ∧
    (∀ g ∈ (resolveSystemeTagId net apiKey v).2,
      g = ⟨"/api/tags?perPage=100", "GET", none⟩ ∨
      g = ⟨"/api/tags", "POST",
        some (.obj [("name", .str (jsToString v))])⟩)) := by
  refine ⟨?_, ?_, ?_, ?_⟩
  · intro r i1 hlist hhit
    simp only [resolveSystemeTagId, hdig, Bool.false_eq_true, if_false,
      hlist, hhit, if_true]
  · intro r i1 hlist hhit
    refine ⟨?_, ?_, ?_⟩
    · simp only [resolveSystemeTagId, hdig, Bool.false_eq_true, if_false,
        hlist, hhit]
      cases hcr : systemeFetchAlt net apiKey i1 "/api/tags" false with
      | mk res i2 =>
        cases res with
        | error e => simp
        | ok r' =>
          dsimp only
          split <;> rfl
    · intro r' i2 hcreate hid
      simp only [resolveSystemeTagId, hdig, Bool.false_eq_true, if_false,
        hlist, hhit, hcreate, hid, if_true]
    · intro r' i2 hcreate hid
      simp only [resolveSystemeTagId, hdig, Bool.false_eq_true, if_false,
        hlist, hhit, hcreate, hid]
  · intro hcfg
    simp only [resolveSystemeTagId, hdig, Bool.false_eq_true, if_false] at hcfg
    cases hlist : systemeFetchAlt net apiKey 0 "/api/tags?perPage=100" false with
    | mk res i1 =>
      rw [hlist] at hcfg
      cases res with
      | error e =>
        simp only [Except.error.injEq] at hcfg
        exact absurd (by rw [hlist, hcfg]) (systemeFetchAlt_ne_tagCreate
          net apiKey 0 "/api/tags?perPage=100" false)
      | ok r =>
        dsimp only at hcfg
        by_cases hhit : jsTruthy
            (tagHit r.json (jsToLower (jsTrim (jsToString v)))) = true
        · rw [if_pos hhit] at hcfg
          exact absurd hcfg (by simp)
        · rw [if_neg hhit] at hcfg
          cases hcreate : systemeFetchAlt net apiKey i1 "/api/tags" false with
          | mk res' i2 =>
            rw [hcreate] at hcfg
            cases res' with
            | error e =>
              simp only [Except.error.injEq] at hcfg
              exact absurd (by rw [hcreate, hcfg])
                (systemeFetchAlt_ne_tagCreate net apiKey i1 "/api/tags" false)
            | ok r' =>
              dsimp only at hcfg
              by_cases hid : truthyNum (jsToNum (jsGet r'.json "id")) = true
              · rw [if_pos hid] at hcfg
                exact absurd hcfg (by simp)
              · rw [if_neg hid] at hcfg
                exact ⟨r, i1, r', i2, rfl, by simpa using hhit, hcreate,
                  by simpa using hid⟩
  · intro g hg
    simp only [resolveSystemeTagId, hdig, Bool.false_eq_true, if_false] at hg
    cases hlist : systemeFetchAlt net apiKey 0 "/api/tags?perPage=100" false with
    | mk res i1 =>
      rw [hlist] at hg
      cases res with
      | error e =>
        simp only [List.mem_singleton] at hg
        exact Or.inl hg
      | ok r =>
        dsimp only at hg
        by_cases hhit : jsTruthy
            (tagHit r.json (jsToLower (jsTrim (jsToString v)))) = true
        · rw [if_pos hhit] at hg
          simp only [List.mem_singleton] at hg
          exact Or.inl hg
        · rw [if_neg hhit] at hg
          cases hcreate : systemeFetchAlt net apiKey i1 "/api/tags" false with
          | mk res' i2 =>
            rw [hcreate] at hg
            cases res' with
            | error e =>
              simp only [List.mem_cons, List.not_mem_nil, or_false] at hg
              exact hg
            | ok r' =>
              dsimp only at hg
              split at hg <;>
                (simp only [List.mem_cons, List.not_mem_nil, or_false] at hg
                 exact hg)

/-- C5 witness: resolving the non-numeric value `"gold"` against an
empty upstream listing creates the tag (request body `{name: "gold"}`)
and returns the newly issued id 9. -/
theorem c5_tag_name_resolution_witness :
    (resolveSystemeTagId c5net "k" (.str "gold")).1 = .ok (some 9) ∧
    (resolveSystemeTagId c5net "k" (.str "gold")).2 =
      [⟨"/api/tags?perPage=100", "GET", none⟩,
        ⟨"/api/tags", "POST", some (.obj [("name", .str "gold")])⟩] := by
  have h := c5_tag_name_resolution c5net "k" (.str "gold") (by decide)
  have h2 := h.2.1 ⟨true, 200, .obj [("items", .arr [])]⟩ 1 rfl (by decide)
  exact ⟨h2.2.1 ⟨true, 201, .obj [("id", .num 9)]⟩ 2 rfl rfl, h2.1⟩

/-! ### Handler theorems -/

/-- Exhaustive enumeration of the handler's control-flow leaves: every
run lands in exactly the branch whose guards it satisfies, with the
recorded transport response and effect-call trace. -/
theorem handler_branches (c : Codec) (cfg : Config) (fx : Effects)
    (req : Request) :
    (req.method ≠ "POST" ∧
      handler c cfg fx req = (⟨405, .errMethod⟩, [])) ∨
    (∃ e, req.rawBody = .error e ∧
      handler c cfg fx req = (⟨200, .okAbsorbed (.jsError e)⟩, [])) ∨
    ((req.hmacHeader.getD [] = [] ∨ hdrFalsy req.topic = true ∨
        hdrFalsy req.shop = true) ∧
      handler c cfg fx req = (⟨400, .errBadRequest⟩, [])) ∨
    (jsTrim cfg.shopDomain = "" ∧
      handler c cfg fx req =
        (⟨200, .okAbsorbed (.envMissing "SHOPIFY_SHOP_DOMAIN")⟩, [])) ∨
    (req.shop.getD "" ≠ cfg.shopDomain ∧
      handler c cfg fx req = (⟨401, .errUnauthorized⟩, [])) ∨
    (jsTrim cfg.webhookSecret = "" ∧
      handler c cfg fx req =
        (⟨200, .okAbsorbed (.envMissing "SHOPIFY_WEBHOOK_SECRET")⟩, [])) ∨
    (∃ raw, req.rawBody = .ok raw ∧
      timingSafeEqual (c.hmacBase64 cfg.webhookSecret raw)
        (req.hmacHeader.getD []) = false ∧
      handler c cfg fx req = (⟨401, .errUnauthorized⟩, [])) ∨
    (req.topic.getD "" ≠ "orders/paid" ∧
      handler c cfg fx req = (⟨200, .okIgnored⟩, [])) ∨
    (∃ raw, req.rawBody = .ok raw ∧ c.parseJson raw = none ∧
      handler c cfg fx req = (⟨400, .errBadRequest⟩, [])) ∨
    (∃ raw payload, req.rawBody = .ok raw ∧ c.parseJson raw = some payload ∧
      extractEmail payload = "" ∧
      handler c cfg fx req = (⟨200, .okNoEmail⟩, [])) ∨
    (∃ raw payload, req.rawBody = .ok raw ∧ c.parseJson raw = some payload ∧
      extractEmail payload ≠ "" ∧
      selectFirstSku (extractLineItems payload) = none ∧
      handler c cfg fx req = (⟨200, .okNoSku⟩, [])) ∨
    (∃ raw payload s e, req.rawBody = .ok raw ∧
      c.parseJson raw = some payload ∧
      extractEmail payload ≠ "" ∧
      selectFirstSku (extractLineItems payload) = some s ∧
      getTagIdFromMap cfg.tagMap s = .error e ∧
      handler c cfg fx req = (⟨200, .okAbsorbed e⟩, [])) ∨
    (∃ raw payload s tid e, req.rawBody = .ok raw ∧
      c.parseJson raw = some payload ∧
      extractEmail payload ≠ "" ∧
      selectFirstSku (extractLineItems payload) = some s ∧
      getTagIdFromMap cfg.tagMap s = .ok tid ∧
      fx.upsert (extractEmail payload) (extractName payload "first_name")
        (extractName payload "last_name") = .error e ∧
      handler c cfg fx req = (⟨200, .okAbsorbed e⟩,
        [.upsertCall (extractEmail payload)
          (extractName payload "first_name")
          (extractName payload "last_name")])) ∨
    (∃ raw payload s tid cid, req.rawBody = .ok raw ∧
      c.parseJson raw = some payload ∧
      extractEmail payload ≠ "" ∧
      selectFirstSku (extractLineItems payload) = some s ∧
      getTagIdFromMap cfg.tagMap s = .ok tid ∧
      fx.upsert (extractEmail payload) (extractName payload "first_name")
        (extractName payload "last_name") = .ok cid ∧
      ((∃ e, fx.assign cid tid = .error e ∧
        handler c cfg fx req = (⟨200, .okAbsorbed e⟩,
          [.upsertCall (extractEmail payload)
            (extractName payload "first_name")
            (extractName payload "last_name"),
            .assignCall cid tid])) ∨
      (fx.assign cid tid = .ok () ∧
        handler c cfg fx req = (⟨200, .okSuccess⟩,
          [.upsertCall (extractEmail payload)
            (extractName payload "first_name")
            (extractName payload "last_name"),
            .assignCall cid tid])))) := by
  unfold handler
  by_cases h1 : req.method ≠ "POST"
  · rw [if_pos h1]
    exact Or.inl ⟨h1, rfl⟩
  · rw [if_neg h1]
    cases hraw : req.rawBody with
    | error e =>
      exact Or.inr (Or.inl ⟨e, rfl, rfl⟩)
    | ok raw =>
      dsimp only
      by_cases h2 : (req.hmacHeader.getD [] = [] ∨ hdrFalsy req.topic = true ∨
          hdrFalsy req.shop = true)
      · rw [if_pos h2]
        exact Or.inr (Or.inr (Or.inl ⟨h2, rfl⟩))
      · rw [if_neg h2]
        by_cases h3 : jsTrim cfg.shopDomain = ""
        · rw [if_pos h3]
          exact Or.inr (Or.inr (Or.inr (Or.inl ⟨h3, rfl⟩)))
        · rw [if_neg h3]
          by_cases h4 : req.shop.getD "" ≠ cfg.shopDomain
          · rw [if_pos h4]
            exact Or.inr (Or.inr (Or.inr (Or.inr (Or.inl ⟨h4, rfl⟩))))
          · rw [if_neg h4]
            by_cases h5 : jsTrim cfg.webhookSecret = ""
            · rw [if_pos h5]
              exact Or.inr (Or.inr (Or.inr (Or.inr (Or.inr
                (Or.inl ⟨h5, rfl⟩)))))
            · rw [if_neg h5]
              by_cases h6 : timingSafeEqual
                  (c.hmacBase64 cfg.webhookSecret raw)
                  (req.hmacHeader.getD []) = true
              · rw [if_neg (not_not_intro h6)]
                by_cases h7 : req.topic.getD "" ≠ "orders/paid"
                · rw [if_pos h7]
                  exact Or.inr (Or.inr (Or.inr (Or.inr (Or.inr (Or.inr
                    (Or.inr (Or.inl ⟨h7, rfl⟩)))))))
                · rw [if_neg h7]
                  cases hp : c.parseJson raw with
                  | none =>
                    exact Or.inr (Or.inr (Or.inr (Or.inr (Or.inr (Or.inr
                      (Or.inr (Or.inr (Or.inl ⟨raw, rfl, hp, rfl⟩))))))))
                  | some payload =>
                    dsimp only
                    by_cases h8 : extractEmail payload = ""
                    · rw [if_pos h8]
                      exact Or.inr (Or.inr (Or.inr (Or.inr (Or.inr (Or.inr
                        (Or.inr (Or.inr (Or.inr (Or.inl
                          ⟨raw, payload, rfl, hp, h8, rfl⟩)))))))))
                    · rw [if_neg h8]
                      cases hs : selectFirstSku (extractLineItems payload) with
                      | none =>
                        exact Or.inr (Or.inr (Or.inr (Or.inr (Or.inr (Or.inr
                          (Or.inr (Or.inr (Or.inr (Or.inr (Or.inl
                            ⟨raw, payload, rfl, hp, h8, hs, rfl⟩))))))))))
                      | some s =>
                        dsimp only
                        cases ht : getTagIdFromMap cfg.tagMap s with
                        | error e =>
                          exact Or.inr (Or.inr (Or.inr (Or.inr (Or.inr
                            (Or.inr (Or.inr (Or.inr (Or.inr (Or.inr (Or.inr
                              (Or.inl ⟨raw, payload, s, e,
                                rfl, hp, h8, hs, ht, rfl⟩)))))))))))
                        | ok tid =>
                          dsimp only
                          cases hu : fx.upsert (extractEmail payload)
                              (extractName payload "first_name")
                              (extractName payload "last_name") with
                          | error e =>
                            exact Or.inr (Or.inr (Or.inr (Or.inr (Or.inr
                              (Or.inr (Or.inr (Or.inr (Or.inr (Or.inr
                                (Or.inr (Or.inr (Or.inl ⟨raw, payload, s,
                                  tid, e, rfl, hp, h8, hs, ht, hu,
                                  rfl⟩))))))))))))
                          | ok cid =>
                            dsimp only
                            cases ha : fx.assign cid tid with
                            | error e =>
                              exact Or.inr (Or.inr (Or.inr (Or.inr (Or.inr
                                (Or.inr (Or.inr (Or.inr (Or.inr (Or.inr
                                  (Or.inr (Or.inr (Or.inr ⟨raw, payload, s,
                                    tid, cid, rfl, hp, h8, hs, ht, hu,
                                    Or.inl ⟨e, ha, rfl⟩⟩))))))))))))
                            | ok u =>
                              exact Or.inr (Or.inr (Or.inr (Or.inr (Or.inr
                                (Or.inr (Or.inr (Or.inr (Or.inr (Or.inr
                                  (Or.inr (Or.inr (Or.inr ⟨raw, payload, s,
                                    tid, cid, rfl, hp, h8, hs, ht, hu,
                                    Or.inr ⟨ha, rfl⟩⟩))))))))))))
              · rw [if_pos h6]
                exact Or.inr (Or.inr (Or.inr (Or.inr (Or.inr (Or.inr
                  (Or.inl ⟨raw, rfl, by simpa using h6, rfl⟩))))))

/-- C1: the handler's status codes are confined to
{200, 400, 401, 405}; 405 arises only from the method check, 400 only
from missing headers or an unparseable body, 401 only from a tenant or
signature mismatch; every request that passes the method,
header-presence, tenant and signature checks and whose body parses is
answered 200 whatever the downstream effects do; and a downstream
exception is absorbed into a 200 acknowledgment embedding the error
description. -/
theorem c1_always_ack (c : Codec) (cfg : Config) (fx : Effects)
    (req : Request) :
    (((handler c cfg fx req).1.status = 200 ∨
      (handler c cfg fx req).1.status = 400 ∨
      (handler c cfg fx req).1.status = 401 ∨
      (handler c cfg fx req).1.status = 405) ∧
    ((handler c cfg fx req).1.status = 405 → req.method ≠ "POST") ∧
    ((handler c cfg fx req).1.status = 400 →
      (req.hmacHeader.getD [] = [] ∨ hdrFalsy req.topic = true ∨
        hdrFalsy req.shop = true) ∨
      (∃ raw, req.rawBody = .ok raw ∧ c.parseJson raw = none)) ∧
    ((handler c cfg fx req).1.status = 401 →
      req.shop.getD "" ≠ cfg.shopDomain ∨
      (∃ raw, req.rawBody = .ok raw ∧
        timingSafeEqual (c.hmacBase64 cfg.webhookSecret raw)
          (req.hmacHeader.getD []) = false))) ∧
    (∀ raw payload,
      req.method = "POST" →
      req.rawBody = .ok raw →
      ¬(req.hmacHeader.getD [] = [] ∨ hdrFalsy req.topic = true ∨
        hdrFalsy req.shop = true) →
      req.shop.getD "" = cfg.shopDomain →
      timingSafeEqual (c.hmacBase64 cfg.webhookSecret raw)
        (req.hmacHeader.getD []) = true →
      c.parseJson raw = some payload →
      ((handler c cfg fx req).1.status = 200 ∧
      (∀ s tid e,
        jsTrim cfg.shopDomain ≠ "" →
        jsTrim cfg.webhookSecret ≠ "" →
        req.topic = some "orders/paid" →
        extractEmail payload ≠ "" →
        selectFirstSku (extractLineItems payload) = some s →
        getTagIdFromMap cfg.tagMap s = .ok tid →
        fx.upsert (extractEmail payload) (extractName payload "first_name")
          (extractName payload "last_name") = .error e →
        (handler c cfg fx req).1 = ⟨200, .okAbsorbed e⟩))) := by
  constructor
  · refine ⟨?_, ?_, ?_, ?_⟩
    · have hb := handler_branches c cfg fx req
      rcases hb with ⟨hm, he⟩ | ⟨e2, hb1, he⟩ | ⟨hc, he⟩ | ⟨hc, he⟩ |
        ⟨hc, he⟩ | ⟨hc, he⟩ | ⟨raw2, hb1, hc, he⟩ | ⟨hc, he⟩ |
        ⟨raw2, hb1, hc, he⟩ | ⟨raw2, payload2, hb1, hb2, hc, he⟩ |
        ⟨raw2, payload2, hb1, hb2, hem2, hc, he⟩ |
        ⟨raw2, payload2, s2, e2, hb1, hb2, hem2, hb3, hc, he⟩ |
        ⟨raw2, payload2, s2, tid2, e2, hb1, hb2, hem2, hb3, hb4, hc, he⟩ |
        ⟨raw2, payload2, s2, tid2, cid2, hb1, hb2, hem2, hb3, hb4, hc,
          ⟨e2, ha2, he⟩ | ⟨ha2, he⟩⟩ <;>
        rw [he] <;> simp
    · have hb := handler_branches c cfg fx req
      rcases hb with ⟨hm, he⟩ | ⟨e2, hb1, he⟩ | ⟨hc, he⟩ | ⟨hc, he⟩ |
        ⟨hc, he⟩ | ⟨hc, he⟩ | ⟨raw2, hb1, hc, he⟩ | ⟨hc, he⟩ |
        ⟨raw2, hb1, hc, he⟩ | ⟨raw2, payload2, hb1, hb2, hc, he⟩ |
        ⟨raw2, payload2, hb1, hb2, hem2, hc, he⟩ |
        ⟨raw2, payload2, s2, e2, hb1, hb2, hem2, hb3, hc, he⟩ |
        ⟨raw2, payload2, s2, tid2, e2, hb1, hb2, hem2, hb3, hb4, hc, he⟩ |
        ⟨raw2, payload2, s2, tid2, cid2, hb1, hb2, hem2, hb3, hb4, hc,
          ⟨e2, ha2, he⟩ | ⟨ha2, he⟩⟩ <;>
        rw [he] <;> intro hst
      all_goals solve
        | exact hm
        | simp at hst
    · have hb := handler_branches c cfg fx req
      rcases hb with ⟨hm, he⟩ | ⟨e2, hb1, he⟩ | ⟨hc, he⟩ | ⟨hc, he⟩ |
        ⟨hc, he⟩ | ⟨hc, he⟩ | ⟨raw2, hb1, hc, he⟩ | ⟨hc, he⟩ |
        ⟨raw2, hb1, hc, he⟩ | ⟨raw2, payload2, hb1, hb2, hc, he⟩ |
        ⟨raw2, payload2, hb1, hb2, hem2, hc, he⟩ |
        ⟨raw2, payload2, s2, e2, hb1, hb2, hem2, hb3, hc, he⟩ |
        ⟨raw2, payload2, s2, tid2, e2, hb1, hb2, hem2, hb3, hb4, hc, he⟩ |
        ⟨raw2, payload2, s2, tid2, cid2, hb1, hb2, hem2, hb3, hb4, hc,
          ⟨e2, ha2, he⟩ | ⟨ha2, he⟩⟩ <;>
        rw [he] <;> intro hst
      all_goals solve
        | simp at hst
        | exact Or.inl hc
        | exact Or.inr ⟨raw2, hb1, hc⟩
    · have hb := handler_branches c cfg fx req
      rcases hb with ⟨hm, he⟩ | ⟨e2, hb1, he⟩ | ⟨hc, he⟩ | ⟨hc, he⟩ |
        ⟨hc, he⟩ | ⟨hc, he⟩ | ⟨raw2, hb1, hc, he⟩ | ⟨hc, he⟩ |
        ⟨raw2, hb1, hc, he⟩ | ⟨raw2, payload2, hb1, hb2, hc, he⟩ |
        ⟨raw2, payload2, hb1, hb2, hem2, hc, he⟩ |
        ⟨raw2, payload2, s2, e2, hb1, hb2, hem2, hb3, hc, he⟩ |
        ⟨raw2, payload2, s2, tid2, e2, hb1, hb2, hem2, hb3, hb4, hc, he⟩ |
        ⟨raw2, payload2, s2, tid2, cid2, hb1, hb2, hem2, hb3, hb4, hc,
          ⟨e2, ha2, he⟩ | ⟨ha2, he⟩⟩ <;>
        rw [he] <;> intro hst
      all_goals solve
        | simp at hst
        | exact Or.inl hc
        | exact Or.inr ⟨raw2, hb1, hc⟩
  · intro raw payload hmethod hraw hh hshop hsig hparse
    constructor
    · have hb := handler_branches c cfg fx req
      rcases hb with ⟨hm, he⟩ | ⟨e2, hb1, he⟩ | ⟨hc, he⟩ | ⟨hc, he⟩ |
        ⟨hc, he⟩ | ⟨hc, he⟩ | ⟨raw2, hb1, hc, he⟩ | ⟨hc, he⟩ |
        ⟨raw2, hb1, hc, he⟩ | ⟨raw2, payload2, hb1, hb2, hc, he⟩ |
        ⟨raw2, payload2, hb1, hb2, hem2, hc, he⟩ |
        ⟨raw2, payload2, s2, e2, hb1, hb2, hem2, hb3, hc, he⟩ |
        ⟨raw2, payload2, s2, tid2, e2, hb1, hb2, hem2, hb3, hb4, hc, he⟩ |
        ⟨raw2, payload2, s2, tid2, cid2, hb1, hb2, hem2, hb3, hb4, hc,
          ⟨e2, ha2, he⟩ | ⟨ha2, he⟩⟩
      all_goals rw [he]
      all_goals solve | rfl | simp_all
    · intro s tid e hdom hsec htopic hemail hsku htag hup
      have hb := handler_branches c cfg fx req
      rcases hb with ⟨hm, he⟩ | ⟨e2, hb1, he⟩ | ⟨hc, he⟩ | ⟨hc, he⟩ |
        ⟨hc, he⟩ | ⟨hc, he⟩ | ⟨raw2, hb1, hc, he⟩ | ⟨hc, he⟩ |
        ⟨raw2, hb1, hc, he⟩ | ⟨raw2, payload2, hb1, hb2, hc, he⟩ |
        ⟨raw2, payload2, hb1, hb2, hem2, hc, he⟩ |
        ⟨raw2, payload2, s2, e2, hb1, hb2, hem2, hb3, hc, he⟩ |
        ⟨raw2, payload2, s2, tid2, e2, hb1, hb2, hem2, hb3, hb4, hc, he⟩ |
        ⟨raw2, payload2, s2, tid2, cid2, hb1, hb2, hem2, hb3, hb4, hc,
          ⟨e2, ha2, he⟩ | ⟨ha2, he⟩⟩
      all_goals simp_all

/-- C1 witness: a fully verified request whose contact upsert throws an
upstream error is acknowledged with 200 and the embedded error. -/
theorem c1_always_ack_witness :
    (handler (cwCodec cwPayload) cwCfg cwFxErr cwReq).1 =
      ⟨200, .okAbsorbed (.gatewayErr "/api/contacts" (some 500))⟩ :=
  ((c1_always_ack (cwCodec cwPayload) cwCfg cwFxErr cwReq).2
    [9] cwPayload rfl rfl (by decide) rfl rfl rfl).2
    "X1" 7 (.gatewayErr "/api/contacts" (some 500))
    (by decide) (by decide) rfl (by decide) rfl rfl rfl

/-- C7: the handler selects the first line item in the order's given
sequence carrying a non-empty SKU string (`List.find?` over the
sequence), not the first line item whose SKU is present in the
configured mapping (a concrete order where the two policies pick
different SKUs separates them); and a mapping failure for the selected
SKU is a terminal no-op — an absorbed 200 with no upstream call, not a
search for the next line item. -/
theorem c7_first_present_sku :
    (∀ items : List Json,
      selectFirstSku items =
        (items.find? fun li => decide (skuOf li ≠ "")).map skuOf) ∧
    (selectFirstSku [.obj [("sku", .str "A")], .obj [("sku", .str "B")]]
        = some "A" ∧
      jsLooseNull (jsGet (Json.obj [("B", .str "7")]) "A") = true ∧
      getTagIdFromMap (.obj [("B", .str "7")]) "B" = .ok 7) ∧
    (∀ (c : Codec) (cfg : Config) (fx : Effects) (req : Request)
      (raw : Bytes) (payload : Json) (s : String) (e : Err),
      req.method = "POST" →
      req.rawBody = .ok raw →
      ¬(req.hmacHeader.getD [] = [] ∨ hdrFalsy req.topic = true ∨
        hdrFalsy req.shop = true) →
      jsTrim cfg.shopDomain ≠ "" →
      req.shop.getD "" = cfg.shopDomain →
      jsTrim cfg.webhookSecret ≠ "" →
      timingSafeEqual (c.hmacBase64 cfg.webhookSecret raw)
        (req.hmacHeader.getD []) = true →
      req.topic = some "orders/paid" →
      c.parseJson raw = some payload →
      extractEmail payload ≠ "" →
      selectFirstSku (extractLineItems payload) = some s →
      getTagIdFromMap cfg.tagMap s = .error e →
      handler c cfg fx req = (⟨200, .okAbsorbed e⟩, [])) := by
  refine ⟨?_, ⟨rfl, rfl, rfl⟩, ?_⟩
  · intro items
    induction items with
    | nil => rfl
    | cons li rest ih =>
      simp only [selectFirstSku, List.findSome?_cons, List.find?_cons]
        at ih ⊢
      by_cases h : skuOf li = ""
      · simp [h]
        simpa using ih
      · simp [h]
  · intro c cfg fx req raw payload s e hmethod hraw hh hdom hshop hsec
      hsig htopic hparse hemail hsku htag
    have hb := handler_branches c cfg fx req
    rcases hb with ⟨hm, he⟩ | ⟨e2, hb1, he⟩ | ⟨hc, he⟩ | ⟨hc, he⟩ |
      ⟨hc, he⟩ | ⟨hc, he⟩ | ⟨raw2, hb1, hc, he⟩ | ⟨hc, he⟩ |
      ⟨raw2, hb1, hc, he⟩ | ⟨raw2, payload2, hb1, hb2, hc, he⟩ |
      ⟨raw2, payload2, hb1, hb2, hem2, hc, he⟩ |
      ⟨raw2, payload2, s2, e2, hb1, hb2, hem2, hb3, hc, he⟩ |
      ⟨raw2, payload2, s2, tid2, e2, hb1, hb2, hem2, hb3, hb4, hc, he⟩ |
      ⟨raw2, payload2, s2, tid2, cid2, hb1, hb2, hem2, hb3, hb4, hc,
        ⟨e2, ha2, he⟩ | ⟨ha2, he⟩⟩
    all_goals simp_all

/-- C7 witness: an order whose first SKU-bearing line item is the
unmapped `A` while the second item's SKU `B` is mapped — the handler
takes `A`, the mapping failure is absorbed as a terminal 200, and no
upstream call is traced. -/
theorem c7_first_present_sku_witness :
    handler (cwCodec cwPayload2) cwCfg2 cwFxOk cwReq =
      (⟨200, .okAbsorbed (.skuNotMapped "A")⟩, []) :=
  c7_first_present_sku.2.2 (cwCodec cwPayload2) cwCfg2 cwFxOk cwReq
    [9] cwPayload2 "A" (.skuNotMapped "A")
    rfl rfl (by decide) (by decide) rfl (by decide) rfl rfl rfl
    (by decide) rfl rfl

/-- C8: for a verified paid-order event, an absent email and an
unmapped selected SKU each produce an early-terminal 2xx outcome with
an empty effect trace — no upstream call is made. -/
theorem c8_no_upstream_on_no_op (c : Codec) (cfg : Config) (fx : Effects)
    (req : Request) (raw : Bytes) (payload : Json)
    (hmethod : req.method = "POST")
    (hraw : req.rawBody = .ok raw)
    (hh : ¬(req.hmacHeader.getD [] = [] ∨ hdrFalsy req.topic = true ∨
      hdrFalsy req.shop = true))
    (hdom : jsTrim cfg.shopDomain ≠ "")
    (hshop : req.shop.getD "" = cfg.shopDomain)
    (hsec : jsTrim cfg.webhookSecret ≠ "")
    (hsig : timingSafeEqual (c.hmacBase64 cfg.webhookSecret raw)
      (req.hmacHeader.getD []) = true)
    (htopic : req.topic = some "orders/paid")
    (hparse : c.parseJson raw = some payload) :
    (extractEmail payload = "" →
      handler c cfg fx req = (⟨200, .okNoEmail⟩, [])) ∧
    (∀ s, extractEmail payload ≠ "" →
      selectFirstSku (extractLineItems payload) = some s →
      jsLooseNull (jsGet cfg.tagMap s) = true →
      handler c cfg fx req = (⟨200, .okAbsorbed (.skuNotMapped s)⟩, [])) := by
  constructor
  · intro hemail
    have hb := handler_branches c cfg fx req
    rcases hb with ⟨hm, he⟩ | ⟨e2, hb1, he⟩ | ⟨hc, he⟩ | ⟨hc, he⟩ |
      ⟨hc, he⟩ | ⟨hc, he⟩ | ⟨raw2, hb1, hc, he⟩ | ⟨hc, he⟩ |
      ⟨raw2, hb1, hc, he⟩ | ⟨raw2, payload2, hb1, hb2, hc, he⟩ |
      ⟨raw2, payload2, hb1, hb2, hem2, hc, he⟩ |
      ⟨raw2, payload2, s2, e2, hb1, hb2, hem2, hb3, hc, he⟩ |
      ⟨raw2, payload2, s2, tid2, e2, hb1, hb2, hem2, hb3, hb4, hc, he⟩ |
      ⟨raw2, payload2, s2, tid2, cid2, hb1, hb2, hem2, hb3, hb4, hc,
        ⟨e2, ha2, he⟩ | ⟨ha2, he⟩⟩
    all_goals simp_all
  · intro s hemail hsku hmiss
    have htag : getTagIdFromMap cfg.tagMap s = .error (.skuNotMapped s) := by
      simp [getTagIdFromMap, hmiss]
    have hb := handler_branches c cfg fx req
    rcases hb with ⟨hm, he⟩ | ⟨e2, hb1, he⟩ | ⟨hc, he⟩ | ⟨hc, he⟩ |
      ⟨hc, he⟩ | ⟨hc, he⟩ | ⟨raw2, hb1, hc, he⟩ | ⟨hc, he⟩ |
      ⟨raw2, hb1, hc, he⟩ | ⟨raw2, payload2, hb1, hb2, hc, he⟩ |
      ⟨raw2, payload2, hb1, hb2, hem2, hc, he⟩ |
      ⟨raw2, payload2, s2, e2, hb1, hb2, hem2, hb3, hc, he⟩ |
      ⟨raw2, payload2, s2, tid2, e2, hb1, hb2, hem2, hb3, hb4, hc, he⟩ |
      ⟨raw2, payload2, s2, tid2, cid2, hb1, hb2, hem2, hb3, hb4, hc,
        ⟨e2, ha2, he⟩ | ⟨ha2, he⟩⟩
    all_goals simp_all

/-- C8 witness: the early-terminal no-ops at concrete requests — an
order without any email field, an order whose email field is
whitespace-only (trimmed empty, per the source's `.trim()`), and an
order whose only SKU is absent from the configured map; all answered
200 with an empty effect trace. -/
theorem c8_no_upstream_on_no_op_witness :
    handler (cwCodec cwPayload3) cwCfg cwFxOk cwReq =
      (⟨200, .okNoEmail⟩, []) ∧
    handler (cwCodec cwPayload4) cwCfg cwFxOk cwReq =
      (⟨200, .okNoEmail⟩, []) ∧
    handler (cwCodec cwPayload2) cwCfg2 cwFxOk cwReq =
      (⟨200, .okAbsorbed (.skuNotMapped "A")⟩, []) := by
  refine ⟨?_, ?_, ?_⟩
  · exact (c8_no_upstream_on_no_op (cwCodec cwPayload3) cwCfg cwFxOk cwReq
      [9] cwPayload3 rfl rfl (by decide) (by decide) rfl (by decide)
      rfl rfl rfl).1 rfl
  · exact (c8_no_upstream_on_no_op (cwCodec cwPayload4) cwCfg cwFxOk cwReq
      [9] cwPayload4 rfl rfl (by decide) (by decide) rfl (by decide)
      rfl rfl rfl).1 rfl
  · exact (c8_no_upstream_on_no_op (cwCodec cwPayload2) cwCfg2 cwFxOk cwReq
      [9] cwPayload2 rfl rfl (by decide) (by decide) rfl (by decide)
      rfl rfl rfl).2 "A" (by decide) rfl rfl

/-- C10: for every request, the handler issues at most one
tag-attachment call, and any attachment it issues carries exactly the
tag resolved from the single selected SKU (the first line item with a
non-empty SKU) together with the upserted contact. -/
theorem c10_single_tag_attachment (c : Codec) (cfg : Config)
    (fx : Effects) (req : Request) :
    (((handler c cfg fx req).2.countP isAssign ≤ 1) ∧
    (∀ cid tid, Call.assignCall cid tid ∈ (handler c cfg fx req).2 →
      ∃ raw payload s, req.rawBody = .ok raw ∧
        c.parseJson raw = some payload ∧
        selectFirstSku (extractLineItems payload) = some s ∧
        getTagIdFromMap cfg.tagMap s = .ok tid ∧
        fx.upsert (extractEmail payload) (extractName payload "first_name")
          (extractName payload "last_name") = .ok cid)) := by
  have hb := handler_branches c cfg fx req
  rcases hb with ⟨hm, he⟩ | ⟨e2, hb1, he⟩ | ⟨hc, he⟩ | ⟨hc, he⟩ |
    ⟨hc, he⟩ | ⟨hc, he⟩ | ⟨raw2, hb1, hc, he⟩ | ⟨hc, he⟩ |
    ⟨raw2, hb1, hc, he⟩ | ⟨raw2, payload2, hb1, hb2, hc, he⟩ |
    ⟨raw2, payload2, hb1, hb2, hem2, hc, he⟩ |
    ⟨raw2, payload2, s2, e2, hb1, hb2, hem2, hb3, hc, he⟩ |
    ⟨raw2, payload2, s2, tid2, e2, hb1, hb2, hem2, hb3, hb4, hc, he⟩ |
    ⟨raw2, payload2, s2, tid2, cid2, hb1, hb2, hem2, hb3, hb4, hc,
      ⟨e2, ha2, he⟩ | ⟨ha2, he⟩⟩
  all_goals rw [he]
  all_goals constructor
  all_goals solve
    | simp [isAssign]
    | (intro cid tid hmem
       simp only [List.mem_cons, List.not_mem_nil, or_false] at hmem
       rcases hmem with hmem | hmem
       · exact absurd hmem (by simp)
       · simp only [Call.assignCall.injEq] at hmem
         obtain ⟨rfl, rfl⟩ := hmem
         exact ⟨raw2, payload2, s2, hb1, hb2, hb3, hb4, hc⟩)

/-- C10 witness: a fully processed order with one mapped SKU issues
exactly one attachment, carrying tag 7 (mapped from SKU `X1`) and the
upserted contact 5. -/
theorem c10_single_tag_attachment_witness :
    (handler (cwCodec cwPayload) cwCfg cwFxOk cwReq).2.countP isAssign ≤ 1 ∧
    ∃ raw payload s, cwReq.rawBody = .ok raw ∧
      (cwCodec cwPayload).parseJson raw = some payload ∧
      selectFirstSku (extractLineItems payload) = some s ∧
      getTagIdFromMap cwCfg.tagMap s = .ok 7 ∧
      cwFxOk.upsert (extractEmail payload)
        (extractName payload "first_name")
        (extractName payload "last_name") = .ok 5 := by
  have h := c10_single_tag_attachment (cwCodec cwPayload) cwCfg cwFxOk cwReq
  refine ⟨h.1, h.2 5 7 ?_⟩
  show Call.assignCall 5 7 ∈
    [Call.upsertCall "a@b.com" (.str "") (.str ""), Call.assignCall 5 7]
  simp

end Lureon
